import Mathlib

/-!
Verification of the flow-field particle visualization engine of this
repository against its specification.

The repository's Python files declare the two Bokeh components
(`FlowFieldInteractive`, `FlowFieldWithBackground`) as property bags whose
behaviour is implemented by a client-side renderer (`__implementation__ =
"flowfield_interactive.ts"` / `"flowfield_with_background.ts"`), which is not
part of the provided sources.  The Python property declarations (names,
types, defaults) are embedded directly from the source; the engine
(sampler, particle system, viewport, animation driver, palette resolution,
config clamping) is modelled from the specification, as indicated in each
doc comment.
-/

namespace BokehFlow

/-- Embedded from src/flowfield_interactive.py (class FlowFieldInteractive):
the declared properties with their declared default values.  Bokeh `Int`
defaults are integers, `Float` defaults rationals, `String`/`Bool` as is. -/
structure FlowFieldInteractive where
  x_coords : List ℚ := []
  y_coords : List ℚ := []
  dx_values : List ℚ := []
  dy_values : List ℚ := []
  magnitudes : List ℚ := []
  particle_count : ℤ := 3000
  particle_size : ℚ := 2
  particle_life : ℤ := 100
  flow_strength : ℚ := 5 / 2
  animate : Bool := true
  animation_speed : ℚ := 1
  show_vectors : Bool := false
  background_color : String := "#0a0a0a"
  color_scheme : String := "viridis"

/-- Embedded from src/flowfield_with_background.py (class
FlowFieldWithBackground): the declared properties with their declared
default values. -/
structure FlowFieldWithBackground where
  x_coords : List ℚ := []
  y_coords : List ℚ := []
  dx_values : List ℚ := []
  dy_values : List ℚ := []
  magnitudes : List ℚ := []
  particle_count : ℤ := 3000
  particle_size : ℚ := 2
  particle_life : ℤ := 100
  particle_trail : Bool := true
  flow_strength : ℚ := 5 / 2
  animate : Bool := true
  animation_speed : ℚ := 1
  show_vectors : Bool := false
  vector_color : String := "#ffffff"
  vector_width : ℚ := 1
  vector_alpha : ℚ := 3 / 10
  vector_scale : ℚ := 20
  background_color : String := "transparent"
  background_image : String := ""
  background_alpha : ℚ := 1
  color_scheme : String := "viridis"

/-- Modelled from the spec (section 3, FlowSample): one flow sample with a
position, a velocity and a magnitude, all in field space. -/
structure FlowSample where
  px : ℚ
  py : ℚ
  dx : ℚ
  dy : ℚ
  mag : ℚ
deriving DecidableEq

/-- Modelled from the spec (section 6, input data contract): the five
numeric sequences supplied by the caller.  The client-side engine that
consumes them is not in the provided sources. -/
structure FlowField where
  x_coords : List ℚ
  y_coords : List ℚ
  dx_values : List ℚ
  dy_values : List ℚ
  magnitudes : List ℚ
deriving DecidableEq

/-- Modelled from the spec (sections 3 and 8): when the five arrays have
mismatched lengths, the engine truncates all sequences to the shortest
length deterministically.  `numSamples` is that shortest length N. -/
def FlowField.numSamples (f : FlowField) : ℕ :=
  min (min f.x_coords.length f.y_coords.length)
    (min (min f.dx_values.length f.dy_values.length) f.magnitudes.length)

/-- Modelled from the spec (sections 3 and 8): the sample collection built
from the five arrays, index by index, truncated to the shortest length. -/
def FlowField.samples (f : FlowField) : List FlowSample :=
  (List.range f.numSamples).map fun i =>
    { px := f.x_coords.getD i 0
      py := f.y_coords.getD i 0
      dx := f.dx_values.getD i 0
      dy := f.dy_values.getD i 0
      mag := f.magnitudes.getD i 0 }

/-- Modelled from the spec: squared euclidean distance used by the
nearest-neighbour sampler. -/
def dist2 (p q : ℚ × ℚ) : ℚ :=
  (p.1 - q.1) ^ 2 + (p.2 - q.2) ^ 2

/-- Modelled from the spec (section 4.1): nearest sample to a query point,
`none` on an empty collection. -/
def nearestSample (p : ℚ × ℚ) : List FlowSample → Option FlowSample
  | [] => none
  | s :: rest =>
    match nearestSample p rest with
    | none => some s
    | some t => if dist2 p (s.px, s.py) ≤ dist2 p (t.px, t.py) then some s else some t

/-- Modelled from the spec (section 4.1, Vector Field Sampler):
`sample(point) -> (velocity, magnitude)`.  Interpolation is modelled by the
nearest-sample policy the spec allows; on the degenerate input N = 0 the
sampler reports zero velocity and zero magnitude. -/
def FlowField.sample (f : FlowField) (p : ℚ × ℚ) : (ℚ × ℚ) × ℚ :=
  match nearestSample p f.samples with
  | none => ((0, 0), 0)
  | some s => ((s.dx, s.dy), s.mag)

/-- Modelled from the spec (section 3, Particle): position, integer age,
bounded trail of past positions, alive flag. -/
structure Particle where
  pos : ℚ × ℚ
  age : ℕ
  trail : List (ℚ × ℚ)
  alive : Bool
deriving DecidableEq

/-- Modelled from the spec (section 6): the field's bounding box. -/
structure Bounds where
  xmin : ℚ
  xmax : ℚ
  ymin : ℚ
  ymax : ℚ
deriving DecidableEq

/-- Modelled from the spec (section 3, Configuration): the scalar knobs the
particle system reads each tick. -/
structure Config where
  particle_count : ℤ := 3000
  particle_life : ℕ := 100
  particle_trail : Bool := true
  flow_strength : ℚ := 5 / 2
  animate : Bool := true
  animation_speed : ℚ := 1
deriving DecidableEq

/-- Modelled from the spec (section 4.2): the recycling margin around the
field bounding box.  The spec fixes no numeric value; a nonnegative
constant is chosen. -/
def recycleMargin : ℚ := 10

/-- Modelled from the spec (section 4.2): bound on the trail history
length ("trail length bounded, e.g., fixed small window"). -/
def trailMax : ℕ := 20

/-- Membership of a point in the bounding box. -/
def inBounds (b : Bounds) (p : ℚ × ℚ) : Prop :=
  b.xmin ≤ p.1 ∧ p.1 ≤ b.xmax ∧ b.ymin ≤ p.2 ∧ p.2 ≤ b.ymax

instance (b : Bounds) (p : ℚ × ℚ) : Decidable (inBounds b p) := by
  unfold inBounds
  infer_instance

/-- Membership of a point in the bounding box expanded by the recycling
margin. -/
def inExpanded (b : Bounds) (p : ℚ × ℚ) : Prop :=
  b.xmin - recycleMargin ≤ p.1 ∧ p.1 ≤ b.xmax + recycleMargin ∧
    b.ymin - recycleMargin ≤ p.2 ∧ p.2 ≤ b.ymax + recycleMargin

instance (b : Bounds) (p : ℚ × ℚ) : Decidable (inExpanded b p) := by
  unfold inExpanded
  infer_instance

/-- Modelled from the spec (section 4.2): a linear congruential generator
standing in for the engine's randomization of recycled positions. -/
def lcg (n : ℕ) : ℕ :=
  (1103515245 * n + 12345) % 2147483648

/-- A pseudo-random rational in [0, 1) derived from a seed. -/
def fract (n : ℕ) : ℚ :=
  ((lcg n % 1000 : ℕ) : ℚ) / 1000

/-- Modelled from the spec (section 4.2): a freshly randomized position
within the field bounds, derived deterministically from a seed. -/
def respawnPos (b : Bounds) (n : ℕ) : ℚ × ℚ :=
  (b.xmin + (b.xmax - b.xmin) * fract n, b.ymin + (b.ymax - b.ymin) * fract (n + 1))

/-- Modelled from the spec (sections 3 and 4.2): a recycled (or newly
initialized) particle: fresh in-bounds position, zero age, empty trail. -/
def freshParticle (b : Bounds) (n : ℕ) : Particle :=
  { pos := respawnPos b n, age := 0, trail := [], alive := true }

/-- Modelled from the spec (section 4.2, step): for an alive particle,
sample velocity at its position, scale by flow_strength * animation_speed
* dt, integrate by Euler, append to trail if trails are enabled, increment
age; recycle when the new age reaches particle_life or the new position
leaves the bounding box with margin.  A non-alive particle is recycled. -/
def advance (f : FlowField) (b : Bounds) (cfg : Config) (dt : ℚ) (seed : ℕ)
    (p : Particle) : Particle :=
  if p.alive then
    let v := (f.sample p.pos).1
    let k := cfg.flow_strength * cfg.animation_speed * dt
    let np : ℚ × ℚ := (p.pos.1 + k * v.1, p.pos.2 + k * v.2)
    if cfg.particle_life ≤ p.age + 1 ∨ ¬ inExpanded b np then
      freshParticle b seed
    else
      { pos := np
        age := p.age + 1
        trail := if cfg.particle_trail then (p.pos :: p.trail).take trailMax else p.trail
        alive := true }
  else freshParticle b seed

/-- Modelled from the spec (section 4.2): one Particle System step over the
whole pool. -/
def step (f : FlowField) (b : Bounds) (cfg : Config) (dt : ℚ) (seed : ℕ)
    (pool : List Particle) : List Particle :=
  pool.map (advance f b cfg dt seed)

/-- Modelled from the spec (sections 3 and 4.2): pool resizing.  Increasing
particle_count appends newly initialized particles; decreasing truncates
from the end without disturbing the remaining particles. -/
def resizePool (b : Bounds) (pool : List Particle) (m : ℕ) : List Particle :=
  if m ≤ pool.length then pool.take m
  else pool ++ (List.range (m - pool.length)).map fun i => freshParticle b (pool.length + i)

/-- Modelled from the spec (section 3, Viewport Transform): scale and pan
offset, written only by the Viewport Controller. -/
structure Viewport where
  scale : ℚ
  panx : ℚ
  pany : ℚ
deriving DecidableEq

/-- Modelled from the spec (section 4.4): scale is clamped to a sane range
[1/10, 20] to prevent degenerate transforms. -/
def clampScale (s : ℚ) : ℚ :=
  max (1 / 10) (min 20 s)

/-- Modelled from the spec (section 4.4): conversion from screen space to
field space under the current transform. -/
def screenToField (v : Viewport) (s : ℚ × ℚ) : ℚ × ℚ :=
  (s.1 / v.scale - v.panx, s.2 / v.scale - v.pany)

/-- Modelled from the spec (section 4.4): conversion from field space to
screen space, inverse of `screenToField` for positive scale. -/
def fieldToScreen (v : Viewport) (p : ℚ × ℚ) : ℚ × ℚ :=
  ((p.1 + v.panx) * v.scale, (p.2 + v.pany) * v.scale)

/-- Modelled from the spec (section 4.4): the multiplicative zoom factor of
one wheel step. -/
def zoomFactor (delta : ℚ) : ℚ :=
  if delta < 0 then 11 / 10 else 10 / 11

/-- Modelled from the spec (section 4.4): wheel zoom centered on the
cursor.  The new scale is the clamped product with the zoom factor and the
pan offset is adjusted so that the field point under the cursor stays
screen-fixed. -/
def onWheel (v : Viewport) (delta : ℚ) (cursor : ℚ × ℚ) : Viewport :=
  let ns := clampScale (v.scale * zoomFactor delta)
  { scale := ns
    panx := v.panx + cursor.1 / ns - cursor.1 / v.scale
    pany := v.pany + cursor.2 / ns - cursor.2 / v.scale }

/-- Modelled from the spec (section 4.3, Renderer): the fixed enumerated
list of named palettes. -/
def namedPalettes : List String :=
  ["viridis", "turbo", "plasma", "inferno", "cividis", "ocean", "rainbow"]

/-- Modelled from the spec (section 7): the default palette used as
fallback. -/
def defaultPalette : String := "viridis"

/-- Modelled from the spec (sections 4.3 and 7): resolution of the
color_scheme configuration value; an unknown scheme name falls back to the
default palette rather than failing. -/
def resolvePalette (s : String) : String :=
  if s ∈ namedPalettes then s else defaultPalette

/-- Modelled from the spec (section 7): out-of-range configuration values
are clamped to the nearest valid bound; for particle_count the valid values
are the nonnegative integers. -/
def clampParticleCount (n : ℤ) : ℤ :=
  max 0 n

/-- Modelled from the spec (section 4.6): the Animation Driver states. -/
inductive DriverMode where
  | Stopped
  | Running
  | Paused
deriving DecidableEq

/-- Modelled from the spec (section 4.6): the engine state the driver owns,
the current mode and the particle pool. -/
structure EngineState where
  mode : DriverMode
  pool : List Particle
deriving DecidableEq

/-- Modelled from the spec (section 4.6): reaction to the animate flag.
Running becomes Paused when animate flips false; Paused becomes Running
when it flips true again; particle state is preserved. -/
def applyAnimate (s : EngineState) (b : Bool) : EngineState :=
  match b, s.mode with
  | false, DriverMode.Running => { s with mode := DriverMode.Paused }
  | true, DriverMode.Paused => { s with mode := DriverMode.Running }
  | _, _ => s

/-- Modelled from the spec (section 4.6): one frame tick.  In Running the
Particle System steps; in Stopped or Paused nothing happens. -/
def tick (f : FlowField) (b : Bounds) (cfg : Config) (dt : ℚ) (seed : ℕ)
    (s : EngineState) : EngineState :=
  match s.mode with
  | DriverMode.Running => { s with pool := step f b cfg dt seed s.pool }
  | _ => s

/-- Iterated frame ticks. -/
def ticks (f : FlowField) (b : Bounds) (cfg : Config) (dt : ℚ) (seed : ℕ) :
    ℕ → EngineState → EngineState
  | 0, s => s
  | k + 1, s => ticks f b cfg dt seed k (tick f b cfg dt seed s)

lemma fract_nonneg (n : ℕ) : 0 ≤ fract n := by
  unfold fract
  positivity

lemma fract_lt_one (n : ℕ) : fract n < 1 := by
  unfold fract
  rw [div_lt_one (by norm_num)]
  exact_mod_cast Nat.lt_of_lt_of_le (Nat.mod_lt _ (by norm_num)) (by norm_num)

lemma respawnPos_inBounds (b : Bounds) (n : ℕ)
    (hx : b.xmin ≤ b.xmax) (hy : b.ymin ≤ b.ymax) :
    inBounds b (respawnPos b n) := by
  have h1 := fract_nonneg n
  have h2 := (fract_lt_one n).le
  have h3 := fract_nonneg (n + 1)
  have h4 := (fract_lt_one (n + 1)).le
  have hdx : (0 : ℚ) ≤ b.xmax - b.xmin := by linarith
  have hdy : (0 : ℚ) ≤ b.ymax - b.ymin := by linarith
  have e1 : (0 : ℚ) ≤ (b.xmax - b.xmin) * fract n := mul_nonneg hdx h1
  have e2 : (b.xmax - b.xmin) * fract n ≤ b.xmax - b.xmin :=
    mul_le_of_le_one_right hdx h2
  have e3 : (0 : ℚ) ≤ (b.ymax - b.ymin) * fract (n + 1) := mul_nonneg hdy h3
  have e4 : (b.ymax - b.ymin) * fract (n + 1) ≤ b.ymax - b.ymin :=
    mul_le_of_le_one_right hdy h4
  simp only [inBounds, respawnPos]
  refine ⟨by linarith, by linarith, by linarith, by linarith⟩

lemma inBounds_inExpanded (b : Bounds) (p : ℚ × ℚ)
    (h : inBounds b p) : inExpanded b p := by
  obtain ⟨h1, h2, h3, h4⟩ := h
  simp only [inExpanded, recycleMargin]
  refine ⟨by linarith, by linarith, by linarith, by linarith⟩

lemma tick_paused (f : FlowField) (b : Bounds) (cfg : Config) (dt : ℚ) (seed : ℕ)
    (s : EngineState) (h : s.mode = DriverMode.Paused) :
    tick f b cfg dt seed s = s := by
  unfold tick
  rw [h]

lemma ticks_paused (f : FlowField) (b : Bounds) (cfg : Config) (dt : ℚ) (seed : ℕ)
    (k : ℕ) (s : EngineState) (h : s.mode = DriverMode.Paused) :
    ticks f b cfg dt seed k s = s := by
  induction k with
  | zero => rfl
  | succ k ih =>
    unfold ticks
    rw [tick_paused f b cfg dt seed s h, ih]

/-- C2: resizing the particle pool to a new particle_count m yields a pool
of exactly m particles in which every particle index below both m and the
old size keeps its exact previous state (position, age, trail, alive):
growing appends without touching the existing particles and shrinking
truncates from the end. -/
theorem resizePool_preserves (b : Bounds) (pool : List Particle) (m : ℕ) :
    (resizePool b pool m).length = m ∧
      ∀ i : ℕ, i < m → i < pool.length → (resizePool b pool m)[i]? = pool[i]? := by
  constructor
  · unfold resizePool
    split
    · rw [List.length_take]
      omega
    · rw [List.length_append, List.length_map, List.length_range]
      omega
  · intro i him hin
    unfold resizePool
    split
    · exact List.getElem?_take_of_lt him
    · exact List.getElem?_append_left hin

/-- C2 witness: growing a pool of 150 particles to 100 keeps index 42
unchanged, at the concrete bounds (0,100)x(0,100). -/
theorem resizePool_preserves_witness :
    (resizePool ⟨0, 100, 0, 100⟩ (List.replicate 150 ⟨(5, 5), 7, [], true⟩) 100).length
        = 100 ∧
      (resizePool ⟨0, 100, 0, 100⟩ (List.replicate 150 ⟨(5, 5), 7, [], true⟩) 100)[42]?
        = (List.replicate 150 (⟨(5, 5), 7, [], true⟩ : Particle))[42]? :=
  ⟨(resizePool_preserves ⟨0, 100, 0, 100⟩ (List.replicate 150 ⟨(5, 5), 7, [], true⟩) 100).1,
    (resizePool_preserves ⟨0, 100, 0, 100⟩ (List.replicate 150 ⟨(5, 5), 7, [], true⟩) 100).2
      42 (by decide) (by simp)⟩

/-- C4: pausing (animate flips false in Running) and later resuming
(animate flips true) never changes any particle: after any number of
frame ticks spent paused, the pool at the moment of resume equals the pool
at the moment of pause. -/
theorem pause_resume_preserves_pool (f : FlowField) (b : Bounds) (cfg : Config)
    (dt : ℚ) (seed : ℕ) (k : ℕ) (s : EngineState)
    (h : s.mode = DriverMode.Running) :
    (applyAnimate (ticks f b cfg dt seed k (applyAnimate s false)) true).pool
      = s.pool := by
  have hp : applyAnimate s false = ⟨DriverMode.Paused, s.pool⟩ := by
    unfold applyAnimate
    rw [h]
  rw [hp, ticks_paused f b cfg dt seed k _ rfl]
  rfl

/-- C4 witness: a concrete running engine state paused for three ticks and
resumed has its single particle unchanged. -/
theorem pause_resume_preserves_pool_witness :
    (⟨DriverMode.Running, [⟨(10, 10), 0, [], true⟩]⟩ : EngineState).mode
        = DriverMode.Running ∧
      (applyAnimate
          (ticks ⟨[0], [0], [1], [0], [1]⟩ ⟨0, 100, 0, 100⟩ ⟨3000, 100, true, 1, true, 1⟩
            1 0 3
            (applyAnimate ⟨DriverMode.Running, [⟨(10, 10), 0, [], true⟩]⟩ false))
          true).pool
        = [⟨(10, 10), 0, [], true⟩] :=
  ⟨rfl,
    pause_resume_preserves_pool ⟨[0], [0], [1], [0], [1]⟩ ⟨0, 100, 0, 100⟩
      ⟨3000, 100, true, 1, true, 1⟩ 1 0 3
      ⟨DriverMode.Running, [⟨(10, 10), 0, [], true⟩]⟩ rfl⟩

/-- C1: with a field consisting of the single sample at (0,0) with velocity
(1,0) and magnitude 1, bounds (0,0)-(100,100), flow_strength = 1,
animation_speed = 1, dt = 1, one Particle System step moves an alive
particle from (10,10) to (11,10): Euler integration by the sampled
velocity scaled by flow_strength * animation_speed * dt. -/
theorem step_single_sample_scenario :
    (step ⟨[0], [0], [1], [0], [1]⟩ ⟨0, 100, 0, 100⟩
        ⟨3000, 100, true, 1, true, 1⟩ 1 0
        [⟨(10, 10), 0, [], true⟩]).map Particle.pos = [(11, 10)] := by
  have hs : FlowField.sample ⟨[0], [0], [1], [0], [1]⟩ ((10 : ℚ), (10 : ℚ)) =
      ((1, 0), 1) := by
    norm_num [FlowField.sample, FlowField.samples, FlowField.numSamples,
      nearestSample, List.range_succ]
  simp only [step, List.map_cons, List.map_nil, advance, hs, if_true]
  norm_num [inExpanded, recycleMargin]

/-- C5: for every field, valid bounds and pool, every particle position
after a Particle System step lies within the bounding box expanded by the
recycling margin: a particle that left the expanded box, or whose age
reached particle_life, was recycled in that step to a fresh in-bounds
position. -/
theorem step_positions_in_expanded (f : FlowField) (b : Bounds) (cfg : Config)
    (dt : ℚ) (seed : ℕ) (pool : List Particle)
    (hx : b.xmin ≤ b.xmax) (hy : b.ymin ≤ b.ymax) :
    ∀ p ∈ step f b cfg dt seed pool, inExpanded b p.pos := by
  intro p hp
  rcases List.mem_map.1 hp with ⟨q, hq, rfl⟩
  have hfresh : inExpanded b (freshParticle b seed).pos :=
    inBounds_inExpanded b _ (respawnPos_inBounds b seed hx hy)
  unfold advance
  split
  · dsimp only
    split
    · exact hfresh
    · rename_i hcond
      push_neg at hcond
      exact hcond.2
  · exact hfresh

/-- C5 witness: the invariant at the concrete single-sample scenario. -/
theorem step_positions_in_expanded_witness :
    ((⟨0, 100, 0, 100⟩ : Bounds).xmin ≤ (⟨0, 100, 0, 100⟩ : Bounds).xmax) ∧
      ((⟨0, 100, 0, 100⟩ : Bounds).ymin ≤ (⟨0, 100, 0, 100⟩ : Bounds).ymax) ∧
      ∀ p ∈ step ⟨[0], [0], [1], [0], [1]⟩ ⟨0, 100, 0, 100⟩
          ⟨3000, 100, true, 1, true, 1⟩ 1 0 [⟨(10, 10), 0, [], true⟩],
        inExpanded ⟨0, 100, 0, 100⟩ p.pos :=
  ⟨by norm_num, by norm_num,
    step_positions_in_expanded ⟨[0], [0], [1], [0], [1]⟩ ⟨0, 100, 0, 100⟩
      ⟨3000, 100, true, 1, true, 1⟩ 1 0 [⟨(10, 10), 0, [], true⟩]
      (by norm_num) (by norm_num)⟩

/-- C6: on the degenerate input with zero flow samples the sampler returns
zero velocity and zero magnitude at every query point; the engine's step
and tick stay total on it (no fault). -/
theorem sample_degenerate_zero (f : FlowField) (p : ℚ × ℚ)
    (h : f.numSamples = 0) : f.sample p = ((0, 0), 0) := by
  unfold FlowField.sample FlowField.samples
  rw [h]
  rfl

/-- C6 witness: the all-empty field has zero samples and samples to zero
velocity at (3, 4). -/
theorem sample_degenerate_zero_witness :
    (FlowField.numSamples ⟨[], [], [], [], []⟩ = 0) ∧
      FlowField.sample ⟨[], [], [], [], []⟩ (3, 4) = ((0, 0), 0) :=
  ⟨rfl, sample_degenerate_zero ⟨[], [], [], [], []⟩ (3, 4) rfl⟩

/-- C7: mismatched array lengths are handled by one deterministic policy,
truncation to the shortest length: the sample collection has exactly
numSamples elements (the minimum of the five lengths), and truncating all
five arrays to that length yields the identical sample collection, so
entries beyond the shortest length never influence the engine. -/
theorem samples_truncation_policy (f : FlowField) :
    f.samples.length = f.numSamples ∧
      FlowField.samples
          ⟨f.x_coords.take f.numSamples, f.y_coords.take f.numSamples,
            f.dx_values.take f.numSamples, f.dy_values.take f.numSamples,
            f.magnitudes.take f.numSamples⟩
        = f.samples := by
  refine ⟨by simp [FlowField.samples], ?_⟩
  have hn : FlowField.numSamples
      ⟨f.x_coords.take f.numSamples, f.y_coords.take f.numSamples,
        f.dx_values.take f.numSamples, f.dy_values.take f.numSamples,
        f.magnitudes.take f.numSamples⟩ = f.numSamples := by
    simp only [FlowField.numSamples, List.length_take]
    omega
  unfold FlowField.samples
  rw [hn]
  refine List.map_congr_left ?_
  intro i hi
  have hi' : i < f.numSamples := List.mem_range.1 hi
  simp only [List.getD_eq_getElem?_getD, List.getElem?_take_of_lt hi']

/-- C3: wheel zoom is centered on the cursor: the field-space point under
the cursor is unchanged by `onWheel`, for every viewport, zoom delta and
cursor position (exactly, in rational arithmetic). -/
theorem wheelZoom_cursor_fixed (v : Viewport) (delta : ℚ) (c : ℚ × ℚ) :
    screenToField (onWheel v delta c) c = screenToField v c := by
  unfold screenToField onWheel
  exact Prod.ext (by ring) (by ring)

/-- C8: every color_scheme value that is not one of the named palettes
resolves to the default palette instead of failing. -/
theorem resolvePalette_unknown_fallback (s : String) (h : s ∉ namedPalettes) :
    resolvePalette s = defaultPalette := by
  unfold resolvePalette
  simp [h]

/-- C8 witness: the value "yellow", used by example1_manual_coastlines in
src/true_overlay_example.py, is not a named palette and resolves to the
default palette. -/
theorem resolvePalette_unknown_fallback_witness :
    "yellow" ∉ namedPalettes ∧ resolvePalette "yellow" = defaultPalette :=
  ⟨by decide, resolvePalette_unknown_fallback "yellow" (by decide)⟩

/-- C9: out-of-range particle_count values are clamped to the nearest
valid bound: the clamped value is always valid (nonnegative), an already
valid value is kept unchanged, and a negative value is clamped to 0. -/
theorem clampParticleCount_nearest (n : ℤ) :
    0 ≤ clampParticleCount n ∧ (0 ≤ n → clampParticleCount n = n) ∧
      (n < 0 → clampParticleCount n = 0) := by
  unfold clampParticleCount
  refine ⟨le_max_left 0 n, fun h => ?_, fun h => ?_⟩ <;> omega

/-- C9 witness: the negative value -5 is clamped to 0. -/
theorem clampParticleCount_nearest_witness :
    (-5 : ℤ) < 0 ∧ clampParticleCount (-5) = 0 :=
  ⟨by decide, (clampParticleCount_nearest (-5)).2.2 (by decide)⟩

/-- C10: the configuration defaults declared in src/flowfield_interactive.py
and src/flowfield_with_background.py: particle_count 3000, particle_size 2,
particle_life 100, flow_strength 2.5, animate true, animation_speed 1.0,
show_vectors false, color_scheme "viridis" for both components;
FlowFieldWithBackground additionally particle_trail true, background_image
"" (no background), background_alpha 1.0 and background_color
"transparent"; FlowFieldInteractive background_color "#0a0a0a". -/
theorem declared_default_values :
    (({} : FlowFieldInteractive).particle_count = 3000 ∧
      ({} : FlowFieldInteractive).particle_size = 2 ∧
      ({} : FlowFieldInteractive).particle_life = 100 ∧
      ({} : FlowFieldInteractive).flow_strength = 5 / 2 ∧
      ({} : FlowFieldInteractive).animate = true ∧
      ({} : FlowFieldInteractive).animation_speed = 1 ∧
      ({} : FlowFieldInteractive).show_vectors = false ∧
      ({} : FlowFieldInteractive).color_scheme = "viridis" ∧
      ({} : FlowFieldInteractive).background_color = "#0a0a0a") ∧
    (({} : FlowFieldWithBackground).particle_count = 3000 ∧
      ({} : FlowFieldWithBackground).particle_size = 2 ∧
      ({} : FlowFieldWithBackground).particle_life = 100 ∧
      ({} : FlowFieldWithBackground).flow_strength = 5 / 2 ∧
      ({} : FlowFieldWithBackground).animate = true ∧
      ({} : FlowFieldWithBackground).animation_speed = 1 ∧
      ({} : FlowFieldWithBackground).show_vectors = false ∧
      ({} : FlowFieldWithBackground).color_scheme = "viridis" ∧
      ({} : FlowFieldWithBackground).particle_trail = true ∧
      ({} : FlowFieldWithBackground).background_image = "" ∧
      ({} : FlowFieldWithBackground).background_alpha = 1 ∧
      ({} : FlowFieldWithBackground).background_color = "transparent") :=
  ⟨⟨rfl, rfl, rfl, rfl, rfl, rfl, rfl, rfl, rfl⟩,
    ⟨rfl, rfl, rfl, rfl, rfl, rfl, rfl, rfl, rfl, rfl, rfl, rfl⟩⟩

end BokehFlow
